import Mathlib

/-!
Verification development for the novaai-backend-v2 repository.

The definitions below are shallow embeddings of the JavaScript source:
pure string manipulation becomes Lean functions on `String`/`List Char`,
JSON-like provider outputs become the inductive `Value`, fallible code
returns `Option`/`Except`, and the HTTP handlers become functions from the
request fields and provider-call outcomes (supplied as oracle arguments)
to the response that the code would send.
-/

namespace NovaAI

/-- JS regex word-character class `\w` = `[A-Za-z0-9_]` (ASCII only), stated
on code points: `a`-`z` is 97-122, `A`-`Z` is 65-90, `0`-`9` is 48-57,
`_` is 95. -/
def jsWordChar (c : Char) : Bool :=
  decide ((97 ≤ c.toNat ∧ c.toNat ≤ 122) ∨ (65 ≤ c.toNat ∧ c.toNat ≤ 90) ∨
    (48 ≤ c.toNat ∧ c.toNat ≤ 57)) || c == '_'

/-- Characters matched by the JS regex dot `.` (no `s` flag): everything but
line terminators `\n`, `\r`, U+2028, U+2029. -/
def jsDotChar (c : Char) : Bool :=
  !(c == '\n' || c == '\r' || c == ' ' || c == ' ')

/-- `String.prototype.toLowerCase`, per character.  The JS function is
Unicode-aware; the backend only ever distinguishes ASCII afterwards (every
non-ASCII character is rejected by the `\w`-based filters and the URL
pattern), so the ASCII lowering is the faithful fragment. -/
def jsToLower (c : Char) : Char :=
  if h : 65 ≤ c.toNat ∧ c.toNat ≤ 90 then
    Char.ofNatAux (c.toNat + 32) (Or.inl (by omega))
  else c

/-- `s.startsWith(pre)` on the character lists (kernel-computable form of
`String.startsWith`). -/
def jsStartsWith (s pre : String) : Bool :=
  pre.data.isPrefixOf s.data

/-- The whitespace removed by `String.prototype.trim` (ASCII fragment; the
backend only ever tests the trimmed string against ASCII patterns). -/
def jsSpace (c : Char) : Bool :=
  c == ' ' || c == '\t' || c == '\n' || c == '\r'

/-- `String.prototype.trim`. -/
def jsTrim (s : String) : String :=
  String.mk (((s.data.dropWhile jsSpace).reverse.dropWhile jsSpace).reverse)

/-- UTF-8 encoding of one character (used by `Buffer.from(s,'utf8')`). -/
def utf8Bytes (c : Char) : List Nat :=
  let n := c.toNat
  if n < 128 then [n]
  else if n < 2048 then [192 + n / 64, 128 + n % 64]
  else if n < 65536 then [224 + n / 4096, 128 + n / 64 % 64, 128 + n % 64]
  else [240 + n / 262144, 128 + n / 4096 % 64, 128 + n / 64 % 64, 128 + n % 64]

/-- The base64 alphabet digit for an index in `[0, 64)`. -/
def base64Digit (n : Nat) : Char :=
  "ABCDEFGHIJKLMNOPQRSTUVWXYZabcdefghijklmnopqrstuvwxyz0123456789+/".data.getD n 'A'

/-- Standard base64 with `=` padding over a byte list, three bytes at a time
(`Buffer.prototype.toString('base64')`). -/
def base64Chunks : List Nat → List Char
  | [] => []
  | [a] => [base64Digit (a / 4), base64Digit (a % 4 * 16), '=', '=']
  | [a, b] => [base64Digit (a / 4), base64Digit (a % 4 * 16 + b / 16),
               base64Digit (b % 16 * 4), '=']
  | a :: b :: c :: t =>
    base64Digit (a / 4) :: base64Digit (a % 4 * 16 + b / 16) ::
    base64Digit (b % 16 * 4 + c / 64) :: base64Digit (c % 64) :: base64Chunks t

/-- `Buffer.from(s,'utf8').toString('base64')`. -/
def base64Utf8 (s : String) : String :=
  String.mk (base64Chunks ((s.data.map utf8Bytes).flatten))

/-- The optional query part `(\?.*)?$` of the image-URL regex: either nothing,
or a `?` followed by arbitrary non-line-terminator characters. -/
def imageQueryOk : List Char → Bool
  | [] => true
  | '?' :: t => t.all jsDotChar
  | _ => false

/-- The `\.(png|jpg|jpeg|webp|svg)(\?.*)?$` tail after a literal dot. -/
def imageExtOk (cs : List Char) : Bool :=
  ["png", "jpg", "jpeg", "webp", "svg"].any fun e =>
    e.data.isPrefixOf cs && imageQueryOk (cs.drop e.data.length)

/-- Matching of `.*\.(png|jpg|jpeg|webp|svg)(\?.*)?$` against a character
list: some dot splits the list into `.*` material and a recognised image
extension plus optional query (regex backtracking = existence of a split). -/
def imageTail : List Char → Bool
  | [] => false
  | c :: t =>
    if c = '.' then imageExtOk t || imageTail t
    else jsDotChar c && imageTail t

/-- The test `/^https?:\/\/.*\.(png|jpg|jpeg|webp|svg)(\?.*)?$/i` from
`normalizeAny`: case-insensitivity is realised by lowering the string first
(the pattern's literals are lower-case ASCII). -/
def isImageUrl (s : String) : Bool :=
  let l := s.data.map jsToLower
  if ("http://".data).isPrefixOf l then imageTail (l.drop 7)
  else if ("https://".data).isPrefixOf l then imageTail (l.drop 8)
  else false

/-- `tryStr` from `normalizeAny` (src/index.js, src/unnamed/part_001): a
string is accepted when it is a `data:image/` URI, an http(s) URL with a
known image extension, or raw `<svg` text; the latter is returned re-encoded
as a base64 data URI.  A falsy (empty) or non-matching string yields `null`. -/
def tryStr (s : String) : Option String :=
  if s = "" then none
  else if jsStartsWith s "data:image/" then some s
  else if isImageUrl s then some s
  else if jsStartsWith (jsTrim s) "<svg" then
    some ("data:image/svg+xml;base64," ++ base64Utf8 s)
  else none

/-- JSON-like provider output values (`null`/`undefined` collapsed into
`vnull`; numbers as integers — no numeric string in this code path ever
matters beyond truthiness). -/
inductive Value where
  | vnull : Value
  | vbool : Bool → Value
  | vnum : Int → Value
  | vstr : String → Value
  | varr : List Value → Value
  | vobj : List (String × Value) → Value

/-- JS truthiness test `!v` on a `Value`. -/
def falsy : Value → Bool
  | .vnull => true
  | .vbool b => !b
  | .vnum n => n == 0
  | .vstr s => s == ""
  | .varr _ => false
  | .vobj _ => false

/-- `tryStr(v[k])` applied to an arbitrary value: non-strings yield `null`
(`typeof s !== 'string'` guard inside `tryStr`). -/
def tryStrVal : Value → Option String
  | .vstr s => tryStr s
  | _ => none

/-- The first object loop of `dfs`: `tryStr` on each direct child value. -/
def objShallow : List (String × Value) → Option String
  | [] => none
  | (_, x) :: t =>
    match tryStrVal x with
    | some r => some r
    | none => objShallow t

mutual

/-- The `dfs` traversal of `normalizeAny`: strings go through `tryStr`;
arrays recurse element-wise; objects first run `tryStr` over every direct
child value, and only then recurse into the children. -/
def dfs (v : Value) : Option String :=
  if falsy v then none
  else
    match v with
    | .vstr s => tryStr s
    | .varr l => dfsList l
    | .vobj l =>
      match objShallow l with
      | some r => some r
      | none => objDeep l
    | _ => none

/-- The array loop of `dfs`: first non-null recursive result wins. -/
def dfsList : List Value → Option String
  | [] => none
  | x :: t =>
    match dfs x with
    | some r => some r
    | none => dfsList t

/-- The second object loop of `dfs`: recurse into each child value. -/
def objDeep : List (String × Value) → Option String
  | [] => none
  | (_, x) :: t =>
    match dfs x with
    | some r => some r
    | none => objDeep t

end

/-- `normalizeAny` from src/index.js lines 166-185 / src/unnamed/part_001. -/
def normalizeAny (v : Value) : Option String :=
  dfs v

mutual

/-- All string nodes of a value in plain depth-first order — the traversal
order asserted by the specification. -/
def dfsStrings : Value → List String
  | .vstr s => [s]
  | .varr l => dfsStringsList l
  | .vobj l => dfsStringsObj l
  | _ => []

/-- Depth-first string collection over an array. -/
def dfsStringsList : List Value → List String
  | [] => []
  | x :: t => dfsStrings x ++ dfsStringsList t

/-- Depth-first string collection over object entries. -/
def dfsStringsObj : List (String × Value) → List String
  | [] => []
  | (_, x) :: t => dfsStrings x ++ dfsStringsObj t

end

/-- The image shapes named by the specification: `data:image/...` URI, an
http(s) URL with a known image extension, or raw text beginning `<svg`. -/
def matchShape (s : String) : Bool :=
  jsStartsWith s "data:image/" || isImageUrl s || jsStartsWith (jsTrim s) "<svg"

/-- The direct string-valued children of an object, in key order (the
strings inspected by the first object loop of `dfs`). -/
def objDirectStrings : List (String × Value) → List String
  | [] => []
  | (_, .vstr s) :: t => s :: objDirectStrings t
  | _ :: t => objDirectStrings t

mutual

/-- The order in which `normalizeAny` actually inspects string nodes:
depth-first through arrays, but for objects all direct string children
first, then the children recursively. -/
def amendedOrder (v : Value) : List String :=
  if falsy v then []
  else
    match v with
    | .vstr s => [s]
    | .varr l => amendedOrderList l
    | .vobj l => objDirectStrings l ++ amendedOrderObj l
    | _ => []

/-- `amendedOrder` over an array's elements. -/
def amendedOrderList : List Value → List String
  | [] => []
  | x :: t => amendedOrder x ++ amendedOrderList t

/-- `amendedOrder` over an object's entries. -/
def amendedOrderObj : List (String × Value) → List String
  | [] => []
  | (_, x) :: t => amendedOrder x ++ amendedOrderObj t

end

/-- `generateVector` result extraction (src/index.js lines 203-205,
src/unnamed/part_001 lines 143-147): `const img = normalizeAny(out) || out;
if (!img) throw new Error(...)`.  A non-matching but truthy raw output flows
through unchanged. -/
def generateVectorImage (out : Value) : Except String Value :=
  match normalizeAny out with
  | some s => .ok (.vstr s)
  | none => if falsy out then .error "Vector model empty" else .ok out

/-- `generateRealistic` result extraction (src/index.js line 268):
`normalizeAny(out) || (Array.isArray(out) ? out[0] : null)` then the `!img`
throw. -/
def generateRealisticImage (out : Value) : Except String Value :=
  match normalizeAny out with
  | some s => .ok (.vstr s)
  | none =>
    match out with
    | .varr (x :: _) => if falsy x then .error "Flux model empty" else .ok x
    | _ => .error "Flux model empty"

/-- What the raster extraction falls back to when `normalizeAny` finds no
match: the first element of a non-empty array output, with the `!img` throw
for everything else (the behavior the amended C7 asserts). -/
def fluxRawFallback (out : Value) : Except String Value :=
  match out with
  | .varr (x :: _) => if falsy x then .error "Flux model empty" else .ok x
  | _ => .error "Flux model empty"

/-- Replacement of every maximal run of characters outside `[\w\-]` by a
single `_` (the regex replace `/[^\w\-]+/g` of `sanitizeName`); the flag
records whether the previous character was part of such a run. -/
def replaceRunsAux : Bool → List Char → List Char
  | _, [] => []
  | inRun, c :: t =>
    if jsWordChar c || c == '-' then c :: replaceRunsAux false t
    else if inRun then replaceRunsAux true t
    else '_' :: replaceRunsAux true t

/-- Collapse of every run of underscores to one (`/_+/g` replace); the flag
records whether the previous character was an underscore. -/
def collapseAux : Bool → List Char → List Char
  | _, [] => []
  | prevU, c :: t =>
    if c == '_' then
      if prevU then collapseAux true t else '_' :: collapseAux true t
    else c :: collapseAux false t

/-- `sanitizeName` from src/index.js line 141 / src/unnamed/part_001 lines
50-55: lowercase, replace non-`[\w\-]` runs by `_`, collapse `_` runs,
truncate to 80.  `slice(0,80)` counts UTF-16 units, but every character
surviving the replaces is ASCII, where units and characters coincide. -/
def sanitizeName (s : String) : String :=
  String.mk ((collapseAux false (replaceRunsAux false (s.data.map jsToLower))).take 80)

/-- The character set the specification promises for sanitized names:
lowercase ASCII letters (97-122), digits (48-57), underscore, hyphen. -/
def sanitizedChar (c : Char) : Bool :=
  decide (97 ≤ c.toNat ∧ c.toNat ≤ 122) || decide (48 ≤ c.toNat ∧ c.toNat ≤ 57) ||
  c == '_' || c == '-'

/-- Absence of two adjacent underscores (the invariant the `/_+/g`
collapse establishes, preserved by truncation). -/
def noUU : List Char → Bool
  | [] => true
  | [_] => true
  | a :: b :: t => !(a == '_' && b == '_') && noUU (b :: t)

/-- Replicate prediction statuses. -/
inductive PredStatus where
  | starting : PredStatus
  | processing : PredStatus
  | succeeded : PredStatus
  | failed : PredStatus
  | canceled : PredStatus
deriving DecidableEq

/-- The terminal statuses recognised by both `waitForPrediction` helpers in
src/server_replicate.js (lines 122-136 and 396-404). -/
def isTerminal : PredStatus → Bool
  | .succeeded => true
  | .failed => true
  | .canceled => true
  | _ => false

/-- The `while (Date.now() - t0 < MAX_POLL_MS)` loop of `waitForPrediction`:
`f n` is the status returned by the n-th `getPrediction`; each non-terminal
poll advances the clock by the sleep interval (network latency abstracted
away).  Returns the elapsed time at exit together with either the first
terminal status or the thrown timeout error. -/
def waitForPredictionAux (maxMs interval : ℕ) (hI : 0 < interval)
    (f : ℕ → PredStatus) (elapsed n : ℕ) : ℕ × Except String PredStatus :=
  if h : elapsed < maxMs then
    if isTerminal (f n) then (elapsed, .ok (f n))
    else waitForPredictionAux maxMs interval hI f (elapsed + interval) (n + 1)
  else (elapsed, .error "Timeout waiting for Replicate prediction")
termination_by maxMs - elapsed
decreasing_by omega

/-- `waitForPrediction` from src/server_replicate.js, started at time 0 and
observation 0. -/
def waitForPrediction (maxMs interval : ℕ) (hI : 0 < interval)
    (f : ℕ → PredStatus) : ℕ × Except String PredStatus :=
  waitForPredictionAux maxMs interval hI f 0 0

/-- `MAX_POLLS` of the third src/server_replicate.js variant (line 547). -/
def MAX_POLLS : ℕ := 90

/-- The loop-exit test of the third variant's poll loop (line 631):
only `succeeded` and `failed` break the loop — `canceled` does not. -/
def isTerminal3 (s : PredStatus) : Bool :=
  s == .succeeded || s == .failed

/-- The `for (let i = 0; i < MAX_POLLS; i++)` loop of the third variant
(lines 628-641), with the remaining iteration count as fuel: `f k` is the
status of observation k (k = 0 is the create response, k > 0 the k-th GET).
Returns the observation index held in `result` at loop exit and its status. -/
def pollLoop3Iter (f : ℕ → PredStatus) : ℕ → ℕ → ℕ × PredStatus
  | 0, cur => (cur, f cur)
  | fuel + 1, cur =>
    if isTerminal3 (f cur) then (cur, f cur)
    else pollLoop3Iter f fuel (cur + 1)

/-- The third variant's poll loop run from the create response. -/
def pollLoop3 (f : ℕ → PredStatus) : ℕ × PredStatus :=
  pollLoop3Iter f MAX_POLLS 0

/-- JS truthiness of an optional string field (absent or empty = falsy). -/
def truthyOpt : Option String → Bool
  | none => false
  | some s => s != ""

/-- `genOpenAI` from src/index.js lines 466-493.  The oracle `resp` is the
outcome of the fetch: `.error` for a thrown network error or a non-ok HTTP
status, `.ok ds` for parsed JSON whose `data` array has the optional
`b64_json` fields `ds` (a missing `data` field behaves as the empty list).
Note that a present first datum without `b64_json` interpolates the string
`"undefined"` into the returned data URI. -/
def genOpenAI (hasKey : Bool) (resp : Except String (List (Option String))) :
    Except String String :=
  if !hasKey then .error "No OPENAI_API_KEY"
  else
    match resp with
    | .error e => .error e
    | .ok [] => .error "OpenAI sin data"
    | .ok (d :: _) => .ok ("data:image/png;base64," ++ d.getD "undefined")

/-- `genFluxFallback` from src/index.js lines 495-505: first array element
if the output is a non-empty array, the output itself if it is a string,
otherwise a thrown error. -/
def genFluxFallback (out : Except String Value) : Except String Value :=
  match out with
  | .error e => .error e
  | .ok (.varr (x :: _)) => .ok x
  | .ok (.vstr s) => .ok (.vstr s)
  | .ok _ => .error "Flux sin salida"

/-- The owner/vector section of the variant-3 handler (src/index.js lines
441-463), as the value of the nullable `vector_url` variable: `none` means
it was never assigned (exceptions are caught, unusable shapes skipped),
`some x` that it was assigned `x` — possibly a falsy value such as `""` or
`null`, which the handler's later truthiness checks treat as absent. -/
def vectorPath (vectorOut : Except String Value) : Option Value :=
  match vectorOut with
  | .ok (.varr (x :: _)) => some x
  | .ok (.vstr s) => some (.vstr s)
  | _ => none

/-- The customer/raster section (src/index.js lines 507-520), as the value
of the nullable `raster_url` variable: OpenAI first (or a forced error when
`FORCE_FALLBACK`), Flux on any failure, `none` when both throw.  A Flux
"success" may assign a falsy value (`""`, `null`); the handler's later
truthiness checks treat it as absent. -/
def rasterPath (forceFallback hasKey : Bool)
    (openaiResp : Except String (List (Option String)))
    (fluxOut : Except String Value) : Option Value :=
  match (if forceFallback then Except.error "Forced fallback"
         else genOpenAI hasKey openaiResp) with
  | .ok s => some (.vstr s)
  | .error _ =>
    match genFluxFallback fluxOut with
    | .ok v => some v
    | .error _ => none

/-- Outbound provider calls issued by the raster section: Flux only when
the fallback is forced or no OpenAI key exists, OpenAI alone on its
success, OpenAI then Flux on its failure. -/
def rasterCalls (forceFallback hasKey : Bool)
    (openaiResp : Except String (List (Option String))) : ℕ :=
  if forceFallback then 1
  else if !hasKey then 1
  else
    match genOpenAI true openaiResp with
    | .ok _ => 1
    | .error _ => 2

/-- The `model.raster` field of the success response (src/index.js line
532): attribution by shape — `raster_url?.startsWith("data:")` picks the
OpenAI label for a data URI, the Flux label otherwise.  When `raster_url`
is still null or was assigned `null`/`undefined`, the `?.` short-circuits
to `undefined`, which is falsy, so the Flux label is picked.  A truthy
non-string `raster_url` would make the JS expression throw a TypeError;
that case is represented as `none`. -/
def rasterProvenance : Option Value → Option String
  | some (.vstr s) =>
    some (if jsStartsWith s "data:" then "gpt-image-1"
          else "black-forest-labs/flux-schnell")
  | some .vnull => some "black-forest-labs/flux-schnell"
  | some _ => none
  | none => some "black-forest-labs/flux-schnell"

/-- The JSON response of the variant-3 `/api/generate` (error responses
carry no image fields and no provenance). -/
structure GenResponse where
  status : ℕ
  ok : Bool
  vector_url : Option Value
  raster_url : Option Value
  model_raster : Option String

/-- The request fields of the variant-3 `/api/generate` after the JS
destructuring defaults (absent prompt = `""`, absent mode = `"both"`). -/
structure Req3 where
  prompt : String
  image_base64 : Option String
  source_url : Option String
  mode : String

/-- The missing-input check of the variant-3 handler (src/index.js lines
419-422): `!prompt && !image_base64 && !source_url`. -/
def indexReject (prompt : String) (image_base64 source_url : Option String) : Bool :=
  prompt == "" && !truthyOpt image_base64 && !truthyOpt source_url

/-- JS truthiness of the nullable `vector_url`/`raster_url` variables:
falsy when still null (never assigned) or when assigned a falsy value such
as `""`, `null` or `0`. -/
def truthyVal : Option Value → Bool
  | none => false
  | some v => !falsy v

/-- The variant-3 `POST /api/generate` handler (src/index.js lines 418-535)
as a function of the request and of the provider-call outcomes, returning
the response and the number of outbound provider calls issued.  The
all-failed test is the truthiness check `!vector_url && !raster_url`
(line 522), and the success response serializes `vector_url || null` and
`raster_url || null`, so an assigned falsy result counts as no image. -/
def handleGenerate (r : Req3) (forceFallback hasKey : Bool)
    (vectorOut : Except String Value)
    (openaiResp : Except String (List (Option String)))
    (fluxOut : Except String Value) : GenResponse × ℕ :=
  if indexReject r.prompt r.image_base64 r.source_url then
    (⟨400, false, none, none, none⟩, 0)
  else
    let modeVector := r.mode == "both" || r.mode == "vector"
    let modeRaster := r.mode == "both" || r.mode == "raster"
    let v := if modeVector then vectorPath vectorOut else none
    let ru := if modeRaster then rasterPath forceFallback hasKey openaiResp fluxOut
              else none
    let calls := (if modeVector then 1 else 0) +
      (if modeRaster then rasterCalls forceFallback hasKey openaiResp else 0)
    if !truthyVal v && !truthyVal ru then
      (⟨500, false, none, none, none⟩, calls)
    else
      (⟨200, true, (if truthyVal v then v else none),
        (if truthyVal ru then ru else none), rasterProvenance ru⟩, calls)

/-- The response of `/api/generate` in src/unnamed/part_003. -/
structure Part3Response where
  status : ℕ
  ok : Bool
  owner : Option String
  customer : Option String

/-- The response assembly of src/unnamed/part_003 lines 202-213:
`if (!ownerUrl && !customerUrl) throw` (caught into a 500), otherwise a 200
with `owner: ownerUrl || null, customer: customerUrl || null`. -/
def part003Assemble (ownerUrl customerUrl : Option String) : Part3Response :=
  if !truthyOpt ownerUrl && !truthyOpt customerUrl then ⟨500, false, none, none⟩
  else ⟨200, true,
    (if truthyOpt ownerUrl then ownerUrl else none),
    (if truthyOpt customerUrl then customerUrl else none)⟩

/-- The body fields of src/server.js `POST /api/generate` consulted by its
prompt check (plus the reference field, which the check ignores). -/
structure ServerJsBody where
  prompt : Option String
  product_category : String
  product_name : String
  color : String
  text1 : String
  text2 : String
  image_base64 : Option String

/-- `parts.join('. ')`. -/
def joinParts : List String → String
  | [] => ""
  | [p] => p
  | p :: t => p ++ ". " ++ joinParts t

/-- `fallbackPromptFromPayload` from src/server.js lines 51-59. -/
def fallbackPromptFromPayload (b : ServerJsBody) : String :=
  let parts1 : List String :=
    if b.product_category != "" || b.product_name != "" then
      [jsTrim ("Product mockup for laser/acrylic: " ++ b.product_category ++ " " ++ b.product_name)]
    else []
  let parts2 : List String :=
    if b.color != "" then ["dominant color: " ++ b.color] else []
  let t1 := jsTrim b.text1
  let t2 := jsTrim b.text2
  let parts3 : List String :=
    if t1 != "" || t2 != "" then
      ["include the text: \"" ++ jsTrim (t1 ++ " " ++ t2) ++ "\""] else []
  joinParts (parts1 ++ parts2 ++ parts3)

/-- The prompt requirement of src/server.js lines 61-64: 400
`prompt_required` exactly when the trimmed prompt and the product fallback
are both empty; no reference field is consulted. -/
def serverJsReject (b : ServerJsBody) : Bool :=
  jsTrim (b.prompt.getD "") == "" && fallbackPromptFromPayload b == ""

/-- The reference requirement of the third src/server_replicate.js variant,
lines 609-616: without a `ref` field or an uploaded file the request is
rejected with 400 `Missing ref image`, regardless of the prompt. -/
def proxy3Reject (ref : Option String) (hasFile : Bool) : Bool :=
  !truthyOpt ref && !hasFile

/-- JS numbers as far as the clamping logic observes them: `NaN` or an
exact rational (the clamp bounds and defaults are exactly representable,
and interval membership is unaffected by binary rounding). -/
inductive JsNum where
  | nan : JsNum
  | num : ℚ → JsNum
deriving DecidableEq

/-- `Math.min` — NaN-propagating. -/
def jsMin : JsNum → JsNum → JsNum
  | .nan, _ => .nan
  | _, .nan => .nan
  | .num a, .num b => .num (min a b)

/-- `Math.max` — NaN-propagating. -/
def jsMax : JsNum → JsNum → JsNum
  | .nan, _ => .nan
  | _, .nan => .nan
  | .num a, .num b => .num (max a b)

/-- A caller-supplied body field as the clamping code sees it: absent,
a JSON number, or a string. -/
inductive JsField where
  | absent : JsField
  | numlit : ℚ → JsField
  | strlit : String → JsField

/-- JS truthiness of a field (`undefined`, `0` and `""` are falsy). -/
def truthyField : JsField → Bool
  | .absent => false
  | .numlit q => !(q == 0)
  | .strlit s => s != ""

/-- Value of a non-empty all-digit character list. -/
def decDigits (l : List Char) : Option ℕ :=
  if l = [] then none
  else if l.all (fun c => decide (48 ≤ c.toNat ∧ c.toNat ≤ 57)) then
    some (l.foldl (fun a c => a * 10 + (c.toNat - 48)) 0)
  else none

/-- `Number(s)` for a string: trimmed empty is 0, an optionally signed
decimal (integer part, fraction part, or both) is its value, anything else
is NaN.  This is the fragment of the full coercion (no exponents, no hex)
exercised by the inputs below; on those inputs all JS rules agree. -/
def jsNumberOfString (s : String) : JsNum :=
  let t := (jsTrim s).data
  if t = [] then .num 0
  else
    let su : ℚ × List Char :=
      match t with
      | '-' :: r => (-1, r)
      | '+' :: r => (1, r)
      | _ => (1, t)
    let ip := su.2.takeWhile (fun c => c != '.')
    match su.2.dropWhile (fun c => c != '.') with
    | [] =>
      match decDigits ip with
      | some n => .num (su.1 * n)
      | none => .nan
    | _ :: frac =>
      if frac.any (fun c => c == '.') then .nan
      else if ip = [] ∧ frac = [] then .nan
      else
        match (if ip = [] then some 0 else decDigits ip),
              (if frac = [] then some 0 else decDigits frac) with
        | some a, some b => .num (su.1 * ((a : ℚ) + (b : ℚ) / ((10 : ℚ) ^ frac.length)))
        | _, _ => .nan

/-- `Number(field ?? dflt)`: `??` substitutes the default only for an
absent (null/undefined) field. -/
def jsNumber (x : JsField) (dflt : ℚ) : JsNum :=
  match x with
  | .absent => .num dflt
  | .numlit q => .num q
  | .strlit s => jsNumberOfString s

/-- Truncation toward zero, as `parseInt` performs on a numeric argument. -/
def jsTrunc (q : ℚ) : ℤ :=
  if 0 ≤ q then ⌊q⌋ else -⌊-q⌋

/-- `parseInt(s, 10)` on a string: optionally signed leading digit run,
NaN when there is none. -/
def jsParseIntStr (s : String) : JsNum :=
  let t := (jsTrim s).data
  let su : ℚ × List Char :=
    match t with
    | '-' :: r => (-1, r)
    | '+' :: r => (1, r)
    | _ => (1, t)
  match decDigits (su.2.takeWhile (fun c => decide (48 ≤ c.toNat ∧ c.toNat ≤ 57))) with
  | some n => .num (su.1 * n)
  | none => .nan

/-- `parseInt(req.body.steps || 28, 10)` (src/server_replicate.js lines
178 and 444): a falsy field is replaced by the numeric default 28 before
parsing. -/
def stepsRaw (f : JsField) : JsNum :=
  match (if truthyField f then f else .numlit 28) with
  | .absent => .num 28
  | .numlit q => .num (jsTrunc q)
  | .strlit s => jsParseIntStr s

/-- `Math.max(12, Math.min(50, parseInt(req.body.steps || 28, 10)))`. -/
def clampSteps (f : JsField) : JsNum :=
  jsMax (.num 12) (jsMin (.num 50) (stepsRaw f))

/-- `Math.max(0.0, Math.min(1.0, Number(req.body.strength ?? (refUrl ?
0.20 : 1.0))))` (src/server_replicate.js lines 174-177 and 440-443). -/
def clampStrength (f : JsField) (hasRef : Bool) : JsNum :=
  jsMax (.num 0) (jsMin (.num 1) (jsNumber f (if hasRef then (0.2 : ℚ) else 1)))

/-- The interval membership the claim asserts; NaN lies in no interval. -/
def inRange (lo hi : ℚ) : JsNum → Prop
  | .nan => False
  | .num q => lo ≤ q ∧ q ≤ hi


theorem objShallow_eq (l : List (String × Value)) :
    objShallow l = (objDirectStrings l).findSome? tryStr := by
  induction l with
  | nil => rfl
  | cons p t ih =>
    obtain ⟨k, x⟩ := p
    cases x
    case vstr s =>
      simp only [objShallow, tryStrVal, objDirectStrings, List.findSome?_cons]
      cases tryStr s <;> simp [ih]
    all_goals simp [objShallow, tryStrVal, objDirectStrings, ih]

mutual

theorem dfs_eq_order : (v : Value) → dfs v = (amendedOrder v).findSome? tryStr
  | .vnull => by simp [dfs, amendedOrder, falsy]
  | .vbool b => by cases b <;> simp [dfs, amendedOrder, falsy]
  | .vnum n => by simp [dfs, amendedOrder, falsy]
  | .vstr s => by
      by_cases h : s = ""
      · simp [dfs, amendedOrder, falsy, h, tryStr]
      · simp only [dfs, amendedOrder, falsy]
        rw [if_neg (by simp [h]), if_neg (by simp [h])]
        simp only [List.findSome?_cons, List.findSome?_nil]
        cases tryStr s <;> rfl
  | .varr l => by
      simpa [dfs, amendedOrder, falsy] using dfsList_eq_order l
  | .vobj l => by
      simp only [dfs, amendedOrder, falsy]
      rw [if_neg (by simp), if_neg (by simp)]
      rw [List.findSome?_append, ← objShallow_eq, ← objDeep_eq_order l]
      cases objShallow l <;> simp [Option.or]

theorem dfsList_eq_order : (l : List Value) → dfsList l = (amendedOrderList l).findSome? tryStr
  | [] => by simp [dfsList, amendedOrderList]
  | x :: t => by
      simp only [dfsList, amendedOrderList]
      rw [List.findSome?_append, dfs_eq_order x, dfsList_eq_order t]
      cases (amendedOrder x).findSome? tryStr <;> simp [Option.or]

theorem objDeep_eq_order : (l : List (String × Value)) → objDeep l = (amendedOrderObj l).findSome? tryStr
  | [] => by simp [objDeep, amendedOrderObj]
  | (k, x) :: t => by
      simp only [objDeep, amendedOrderObj]
      rw [List.findSome?_append, dfs_eq_order x, objDeep_eq_order t]
      cases (amendedOrder x).findSome? tryStr <;> simp [Option.or]

end

/-- A provider output on which the specification's pure depth-first rule and
the implemented traversal disagree: the nested URL comes first depth-first,
but the object loop checks direct string children first. -/
def c2value : Value :=
  .vobj [("a", .vobj [("b", .vstr "https://x/a.png")]), ("c", .vstr "https://x/c.png")]

/-- C2 counterexample: in `c2value`, the string `https://x/a.png` matches an
image shape and precedes `https://x/c.png` in depth-first order, yet
`normalizeAny` skips it in favour of the later shallow string. -/
theorem C2_normalizer_first_match_counterexample :
    (dfsStrings c2value).find? matchShape = some "https://x/a.png" ∧
    normalizeAny c2value = some "https://x/c.png" ∧
    "https://x/c.png" ≠ "https://x/a.png" := by
  refine ⟨by decide, rfl, by decide⟩

/-- C2 (amended): `normalizeAny` returns the first accepted string of its
output, but in a modified order: arrays are traversed depth-first, while for
objects every direct string child is tested (in key order) before any
recursion into children; the accepted string is returned through `tryStr`,
so inline `<svg` text comes back base64-encoded as a data URI rather than
verbatim. -/
theorem C2_normalizer_first_match_amended (v : Value) :
    normalizeAny v = (amendedOrder v).findSome? tryStr :=
  dfs_eq_order v

/-- The server.js request that refutes C5: a reference image is supplied
(`image_base64`), no prompt and no product data. -/
def c5body : ServerJsBody :=
  ⟨none, "", "", "", "", "", some "data:image/png;base64,AAAA"⟩

/-- C5 counterexample: src/server.js rejects with 400 a request that carries
a reference image but no prompt (`serverJsReject c5body`), and the third
replicate proxy rejects with 400 a request with a prompt but no reference
(`proxy3Reject none false`), contradicting "when at least one of the two is
present the request is not rejected". -/
theorem C5_missing_input_counterexample :
    serverJsReject c5body = true ∧ truthyOpt c5body.image_base64 = true ∧
    proxy3Reject none false = true := by
  refine ⟨rfl, rfl, rfl⟩

/-- C5 (amended): the variant-3 index.js handler rejects for missing input
exactly when prompt, `image_base64` and `source_url` are all absent/empty;
src/server.js instead requires a non-empty trimmed prompt or derivable
product fallback and ignores any reference field; the third replicate proxy
requires a reference and ignores the prompt. -/
theorem C5_missing_input_amended (p : String) (ib su : Option String)
    (b : ServerJsBody) (img ref : Option String) (hf : Bool) :
    (indexReject p ib su = true ↔
      (p = "" ∧ truthyOpt ib = false ∧ truthyOpt su = false)) ∧
    (serverJsReject b = true ↔
      (jsTrim (b.prompt.getD "") = "" ∧ fallbackPromptFromPayload b = "")) ∧
    (serverJsReject ⟨b.prompt, b.product_category, b.product_name, b.color,
        b.text1, b.text2, img⟩ = serverJsReject b) ∧
    (proxy3Reject ref hf = true ↔ (truthyOpt ref = false ∧ hf = false)) := by
  refine ⟨?_, ?_, ?_, ?_⟩
  · simp [indexReject, Bool.and_eq_true, Bool.not_eq_true', beq_iff_eq, and_assoc]
  · simp [serverJsReject, Bool.and_eq_true, beq_iff_eq]
  · simp [serverJsReject, fallbackPromptFromPayload]
  · simp [proxy3Reject, Bool.and_eq_true, Bool.not_eq_true']

/-- C7 counterexample: the output `"hello"` contains no node matching an
image shape, yet `generateVector` returns it as the image instead of
failing with the no-image error. -/
theorem C7_no_image_counterexample :
    normalizeAny (.vstr "hello") = none ∧ matchShape "hello" = false ∧
    generateVectorImage (.vstr "hello") = .ok (.vstr "hello") := by
  refine ⟨rfl, rfl, rfl⟩

/-- C7 (amended): when no node matches an image shape, `generateVector`
raises its error only if the raw output is falsy and otherwise returns the
raw provider output unchanged, while `generateRealistic` falls back to the
first array element and errors only when the output is not a non-empty
array or that element is falsy. -/
theorem C7_no_image_amended (out : Value) (h : normalizeAny out = none) :
    generateVectorImage out =
      (if falsy out then .error "Vector model empty" else .ok out) ∧
    generateRealisticImage out = fluxRawFallback out := by
  constructor
  · unfold generateVectorImage
    rw [h]
  · unfold generateRealisticImage fluxRawFallback
    rw [h]

/-- C7 witness: a concrete no-match object output flows through
`generateVector` unchanged, by `C7_no_image_amended`. -/
theorem C7_no_image_witness :
    generateVectorImage (.vobj [("k", .vnum 5)]) = .ok (.vobj [("k", .vnum 5)]) := by
  have h := (C7_no_image_amended (.vobj [("k", .vnum 5)]) rfl).1
  simpa using h

/-- C9 counterexample: the non-numeric strength and steps strings `"abc"`
coerce to NaN, which `Math.max`/`Math.min` propagate, so the provider input
values lie in no interval (NaN serialises as `null`). -/
theorem C9_clamping_counterexample :
    clampStrength (.strlit "abc") true = .nan ∧
    clampSteps (.strlit "abc") = .nan ∧
    ¬ inRange 0 1 (clampStrength (.strlit "abc") true) ∧
    ¬ inRange 12 50 (clampSteps (.strlit "abc")) := by
  refine ⟨rfl, rfl, fun h => h, fun h => h⟩

/-- C9 (amended): the clamped strength and steps lie in `[0,1]` and
`[12,50]` respectively whenever the caller's value coerces to an actual
number (in particular for absent fields, whose defaults 0.2/1.0 and 28 are
in range); a value whose coercion is NaN passes through unclamped as NaN,
and this is the only way NaN arises. -/
theorem C9_clamping_amended (f : JsField) (hasRef : Bool) :
    (clampStrength f hasRef = .nan ∨ inRange 0 1 (clampStrength f hasRef)) ∧
    (clampStrength f hasRef = .nan ↔
      jsNumber f (if hasRef then (0.2 : ℚ) else 1) = .nan) ∧
    (clampSteps f = .nan ∨ inRange 12 50 (clampSteps f)) ∧
    (clampSteps f = .nan ↔ stepsRaw f = .nan) ∧
    clampStrength .absent true = .num 0.2 ∧
    clampStrength .absent false = .num 1 ∧
    clampSteps .absent = .num 28 := by
  have hstr : ∀ x : JsNum, jsMax (.num 0) (jsMin (.num 1) x) = .nan ∨
      inRange 0 1 (jsMax (.num 0) (jsMin (.num 1) x)) := by
    intro x
    cases x with
    | nan => left; rfl
    | num q =>
      right
      simp only [jsMin, jsMax, inRange]
      exact ⟨le_max_left _ _, max_le (by norm_num) (min_le_left _ _)⟩
  have hstp : ∀ x : JsNum, jsMax (.num 12) (jsMin (.num 50) x) = .nan ∨
      inRange 12 50 (jsMax (.num 12) (jsMin (.num 50) x)) := by
    intro x
    cases x with
    | nan => left; rfl
    | num q =>
      right
      simp only [jsMin, jsMax, inRange]
      exact ⟨le_max_left _ _, max_le (by norm_num) (min_le_left _ _)⟩
  refine ⟨hstr _, ?_, hstp _, ?_, ?_, ?_, ?_⟩
  · unfold clampStrength
    cases jsNumber f (if hasRef then (0.2 : ℚ) else 1) <;> simp [jsMin, jsMax]
  · unfold clampSteps
    cases stepsRaw f <;> simp [jsMin, jsMax]
  · show JsNum.num (max 0 (min 1 (0.2 : ℚ))) = JsNum.num 0.2
    rw [min_eq_right (by norm_num : (0.2 : ℚ) ≤ 1),
        max_eq_right (by norm_num : (0 : ℚ) ≤ 0.2)]
  · show JsNum.num (max 0 (min 1 (1 : ℚ))) = JsNum.num 1
    rw [min_self, max_eq_right (by norm_num : (0 : ℚ) ≤ 1)]
  · have h28 : jsTrunc 28 = 28 := by
      unfold jsTrunc
      rw [if_pos (by norm_num)]
      norm_num
    have hs : stepsRaw .absent = .num 28 := by
      show JsNum.num ((jsTrunc 28 : ℤ) : ℚ) = JsNum.num 28
      rw [h28]
      norm_num
    show jsMax (.num 12) (jsMin (.num 50) (stepsRaw .absent)) = .num 28
    rw [hs]
    show JsNum.num (max 12 (min 50 (28 : ℚ))) = JsNum.num 28
    rw [min_eq_right (by norm_num : (28 : ℚ) ≤ 50),
        max_eq_right (by norm_num : (12 : ℚ) ≤ 28)]



/-- A truthy nullable url serializes (`x || null`) to a non-null field. -/
theorem truthy_serialize_ne_none (x : Option Value) (h : truthyVal x = true) :
    (if truthyVal x then x else none) ≠ none := by
  rw [if_pos h]
  intro he
  rw [he] at h
  exact Bool.false_ne_true h

/-- Case analysis of the variant-3 handler: every response is the 400
rejection, the 500 all-failed error (line 522's truthiness check), or a
200 whose image fields are the `|| null`-serialized per-path results, at
least one of them truthy. -/
theorem handleGenerate_cases (r : Req3) (ff hk : Bool)
    (vo : Except String Value) (oa : Except String (List (Option String)))
    (fl : Except String Value) :
    (handleGenerate r ff hk vo oa fl).1 = ⟨400, false, none, none, none⟩ ∨
    (handleGenerate r ff hk vo oa fl).1 = ⟨500, false, none, none, none⟩ ∨
    ∃ v ru, (truthyVal v = true ∨ truthyVal ru = true) ∧
      v = (if r.mode == "both" || r.mode == "vector" then vectorPath vo else none) ∧
      ru = (if r.mode == "both" || r.mode == "raster" then rasterPath ff hk oa fl else none) ∧
      (handleGenerate r ff hk vo oa fl).1
        = ⟨200, true, (if truthyVal v then v else none),
            (if truthyVal ru then ru else none), rasterProvenance ru⟩ := by
  unfold handleGenerate
  by_cases h : indexReject r.prompt r.image_base64 r.source_url
  · left
    simp [h]
  · right
    simp only [h, Bool.false_eq_true, if_false]
    set v := (if r.mode == "both" || r.mode == "vector" then vectorPath vo else none) with hv
    set ru := (if r.mode == "both" || r.mode == "raster" then rasterPath ff hk oa fl else none) with hru
    by_cases h2 : (!truthyVal v && !truthyVal ru) = true
    · left
      simp [h2]
    · right
      refine ⟨v, ru, ?_, rfl, rfl, ?_⟩
      · rcases Bool.and_eq_false_iff.mp (Bool.eq_false_iff.mpr h2) with h3 | h3 <;>
          [left; right] <;> simpa using h3
      · simp [h2]



/-- The OpenAI outcome of the C1 counterexample: HTTP success whose single
datum has no `b64_json` field. -/
def c1openai : Except String (List (Option String)) := .ok [none]

/-- The Flux outcome of the C1 counterexample: a plain image URL. -/
def c1flux : Except String Value := .ok (.vstr "https://x/img.png")

/-- C1 counterexample: the primary (OpenAI) yields no extractable image —
its datum has no `b64_json` — and the secondary (Flux) would succeed, yet
the response is a success sourced from the primary with the literal string
`undefined` interpolated into the data URI, and the provenance field names
the primary.  The fallback is never consulted. -/
theorem C1_fallback_provenance_counterexample :
    handleGenerate ⟨"red fox logo", none, none, "raster"⟩ false true
        (.error "unused") c1openai c1flux
      = (⟨200, true, none, some (.vstr "data:image/png;base64,undefined"),
          some "gpt-image-1"⟩, 1) ∧
    genFluxFallback c1flux = .ok (.vstr "https://x/img.png") :=
  ⟨rfl, rfl⟩

/-- C1 (amended): when the primary fails in the code's sense — it throws
(missing key, network/HTTP error, or an empty `data` array; an OpenAI reply
whose first datum merely lacks `b64_json` counts as success) — and the
secondary succeeds with a truthy (non-empty) string output that does not
begin with `data:`, the response is a 200 sourced from the secondary and
the provenance field names the secondary (attribution is by URL shape, so
a `data:`-prefixed secondary output would be labelled as the primary); in
raster mode the caller sees a failure exactly when the secondary also
fails — by throwing, or by yielding a falsy output such as `""`, which the
truthiness check of line 522 counts as no image. -/
theorem C1_fallback_provenance_amended (r : Req3) (hmode : r.mode = "raster")
    (hval : indexReject r.prompt r.image_base64 r.source_url = false)
    (vo : Except String Value) (oa : Except String (List (Option String)))
    (fl : Except String Value) (e u : String)
    (hprimary : genOpenAI true oa = .error e)
    (hsec : genFluxFallback fl = .ok (.vstr u))
    (hne : u ≠ "")
    (hu : jsStartsWith u "data:" = false) :
    (handleGenerate r false true vo oa fl).1
      = ⟨200, true, none, some (.vstr u), some "black-forest-labs/flux-schnell"⟩ ∧
    (∀ fl2 e2, genFluxFallback fl2 = .error e2 →
      (handleGenerate r false true vo oa fl2).1 = ⟨500, false, none, none, none⟩) ∧
    (∀ fl3, genFluxFallback fl3 = .ok (.vstr "") →
      (handleGenerate r false true vo oa fl3).1 = ⟨500, false, none, none, none⟩) := by
  have hmv : (r.mode == "both" || r.mode == "vector") = false := by rw [hmode]; rfl
  have hmr : (r.mode == "both" || r.mode == "raster") = true := by rw [hmode]; rfl
  refine ⟨?_, ?_, ?_⟩
  · have hrp : rasterPath false true oa fl = some (.vstr u) := by
      unfold rasterPath
      rw [if_neg (by simp), hprimary, hsec]
    unfold handleGenerate
    rw [hval]
    simp only [Bool.false_eq_true, if_false, hmv, hmr, if_true, hrp]
    simp [truthyVal, falsy, hne, rasterProvenance, hu]
  · intro fl2 e2 hfl2
    have hrp2 : rasterPath false true oa fl2 = none := by
      unfold rasterPath
      rw [if_neg (by simp), hprimary, hfl2]
    unfold handleGenerate
    rw [hval]
    simp only [Bool.false_eq_true, if_false, hmv, hmr, if_true, hrp2]
    simp [truthyVal]
  · intro fl3 hfl3
    have hrp3 : rasterPath false true oa fl3 = some (.vstr "") := by
      unfold rasterPath
      rw [if_neg (by simp), hprimary, hfl3]
    unfold handleGenerate
    rw [hval]
    simp only [Bool.false_eq_true, if_false, hmv, hmr, if_true, hrp3]
    simp [truthyVal, falsy]

/-- C1 witness: a concrete request where OpenAI throws and Flux answers
with a non-empty URL, discharged through `C1_fallback_provenance_amended`. -/
theorem C1_fallback_provenance_witness :
    (handleGenerate ⟨"a cat", none, none, "raster"⟩ false true (.error "nv")
        (.error "OpenAI gen 500: quota") (.ok (.vstr "https://x/f.png"))).1
      = ⟨200, true, none, some (.vstr "https://x/f.png"),
          some "black-forest-labs/flux-schnell"⟩ :=
  (C1_fallback_provenance_amended ⟨"a cat", none, none, "raster"⟩ rfl rfl
    (.error "nv") (.error "OpenAI gen 500: quota") (.ok (.vstr "https://x/f.png"))
    "OpenAI gen 500: quota" "https://x/f.png" rfl rfl (by decide) rfl).1

/-- C4 (confirmed): a success response of the variant-3 handler always
carries at least one non-null image field, and when every attempted
provider path yields nothing usable — the url variable is left null or
holds a falsy value such as `""` or a null array element — the response is
an error status with both image fields empty; likewise for the part_003
response assembly. -/
theorem C4_all_fail_no_image (r : Req3) (ff hk : Bool)
    (vo : Except String Value) (oa : Except String (List (Option String)))
    (fl : Except String Value) (ow cu : Option String) :
    ((handleGenerate r ff hk vo oa fl).1.ok = true →
      ¬((handleGenerate r ff hk vo oa fl).1.vector_url = none ∧
        (handleGenerate r ff hk vo oa fl).1.raster_url = none)) ∧
    (truthyVal (vectorPath vo) = false → truthyVal (rasterPath ff hk oa fl) = false →
      (handleGenerate r ff hk vo oa fl).1.ok = false ∧
      (handleGenerate r ff hk vo oa fl).1.vector_url = none ∧
      (handleGenerate r ff hk vo oa fl).1.raster_url = none ∧
      (handleGenerate r ff hk vo oa fl).1.status ≠ 200) ∧
    ((part003Assemble ow cu).ok = true →
      (part003Assemble ow cu).owner ≠ none ∨ (part003Assemble ow cu).customer ≠ none) ∧
    (truthyOpt ow = false → truthyOpt cu = false →
      (part003Assemble ow cu).status = 500 ∧ (part003Assemble ow cu).owner = none ∧
      (part003Assemble ow cu).customer = none) := by
  refine ⟨?_, ?_, ?_, ?_⟩
  · intro hok hnone
    rcases handleGenerate_cases r ff hk vo oa fl with h | h | ⟨v, ru, hne, _, _, h⟩
    · rw [h] at hok
      exact Bool.false_ne_true hok
    · rw [h] at hok
      exact Bool.false_ne_true hok
    · rw [h] at hnone
      rcases hne with hne | hne
      · exact truthy_serialize_ne_none v hne hnone.1
      · exact truthy_serialize_ne_none ru hne hnone.2
  · intro hvp hrp
    rcases handleGenerate_cases r ff hk vo oa fl with h | h | ⟨v, ru, hne, hv, hru, h⟩
    · rw [h]
      exact ⟨rfl, rfl, rfl, by norm_num⟩
    · rw [h]
      exact ⟨rfl, rfl, rfl, by norm_num⟩
    · exfalso
      have hv0 : truthyVal v = false := by
        rw [hv]
        split
        · exact hvp
        · rfl
      have hru0 : truthyVal ru = false := by
        rw [hru]
        split
        · exact hrp
        · rfl
      rcases hne with hne | hne
      · rw [hv0] at hne
        exact Bool.false_ne_true hne
      · rw [hru0] at hne
        exact Bool.false_ne_true hne
  · intro hok
    by_cases h : (!truthyOpt ow && !truthyOpt cu) = true
    · unfold part003Assemble at hok
      rw [if_pos h] at hok
      exact absurd hok (by simp)
    · unfold part003Assemble
      rw [if_neg h]
      rcases Bool.and_eq_false_iff.mp (Bool.eq_false_iff.mpr h) with h2 | h2 <;>
        simp only [Bool.not_eq_false'] at h2
      · left
        simp only [if_pos h2]
        cases ow with
        | none => exact absurd h2 (by simp [truthyOpt])
        | some s => simp
      · right
        simp only [if_pos h2]
        cases cu with
        | none => exact absurd h2 (by simp [truthyOpt])
        | some s => simp
  · intro how hcu
    unfold part003Assemble
    rw [if_pos (by rw [how, hcu]; rfl)]
    exact ⟨rfl, rfl, rfl⟩

/-- C4 witness: with the vector provider answering `[null]` and the raster
fallback answering `""` — assigned but falsy results — the handler answers
the 500 error with no image fields, and the part_003 assembly with two
empty results is the 500 error, via `C4_all_fail_no_image`. -/
theorem C4_all_fail_no_image_witness :
    ((handleGenerate ⟨"p", none, none, "both"⟩ false true (.ok (.varr [.vnull]))
        (.error "eo") (.ok (.vstr ""))).1.ok = false ∧
      (handleGenerate ⟨"p", none, none, "both"⟩ false true (.ok (.varr [.vnull]))
        (.error "eo") (.ok (.vstr ""))).1.vector_url = none ∧
      (handleGenerate ⟨"p", none, none, "both"⟩ false true (.ok (.varr [.vnull]))
        (.error "eo") (.ok (.vstr ""))).1.raster_url = none ∧
      (handleGenerate ⟨"p", none, none, "both"⟩ false true (.ok (.varr [.vnull]))
        (.error "eo") (.ok (.vstr ""))).1.status ≠ 200) ∧
    ((part003Assemble none none).status = 500 ∧ (part003Assemble none none).owner = none ∧
      (part003Assemble none none).customer = none) :=
  ⟨(C4_all_fail_no_image ⟨"p", none, none, "both"⟩ false true (.ok (.varr [.vnull]))
      (.error "eo") (.ok (.vstr "")) none none).2.1 rfl rfl,
   (C4_all_fail_no_image ⟨"p", none, none, "both"⟩ false true (.ok (.varr [.vnull]))
      (.error "eo") (.ok (.vstr "")) none none).2.2.2 rfl rfl⟩

/-- `waitForPredictionAux` returns the first terminal observation while the
clock is within the bound. -/
theorem waitForPredictionAux_terminal (maxMs interval : ℕ) (hI : 0 < interval)
    (f : ℕ → PredStatus) :
    ∀ j elapsed n, (∀ m, m < j → isTerminal (f (n + m)) = false) →
      isTerminal (f (n + j)) = true → elapsed + j * interval < maxMs →
      waitForPredictionAux maxMs interval hI f elapsed n
        = (elapsed + j * interval, .ok (f (n + j))) := by
  intro j
  induction j with
  | zero =>
    intro elapsed n _ hterm hlt
    unfold waitForPredictionAux
    rw [dif_pos (by omega)]
    simp only [Nat.add_zero] at hterm ⊢
    rw [if_pos hterm]
    simp
  | succ k ih =>
    intro elapsed n hpre hterm hlt
    unfold waitForPredictionAux
    rw [dif_pos (by nlinarith [Nat.succ_mul k interval])]
    rw [if_neg (by simpa using hpre 0 (Nat.succ_pos k))]
    have h1 := ih (elapsed + interval) (n + 1)
      (fun m hm => by
        have := hpre (m + 1) (by omega)
        simpa [Nat.add_assoc, Nat.add_comm 1 m] using this)
      (by
        have : n + 1 + k = n + (k + 1) := by omega
        rw [this]
        exact hterm)
      (by
        have : elapsed + interval + k * interval = elapsed + (k + 1) * interval := by ring
        omega)
    have h2 : elapsed + interval + k * interval = elapsed + (k + 1) * interval := by ring
    have h3 : n + 1 + k = n + (k + 1) := by omega
    rw [h2, h3] at h1
    exact h1

/-- When no observation is ever terminal, the loop throws the timeout error
at the first clock value reaching the bound: within one interval past it. -/
theorem waitForPredictionAux_timeout (maxMs interval : ℕ) (hI : 0 < interval)
    (f : ℕ → PredStatus) (hnever : ∀ m, isTerminal (f m) = false) :
    ∀ fuel elapsed n, maxMs - elapsed ≤ fuel → elapsed < maxMs + interval →
      ∃ e, waitForPredictionAux maxMs interval hI f elapsed n
          = (e, .error "Timeout waiting for Replicate prediction") ∧
        maxMs ≤ e ∧ e < maxMs + interval := by
  intro fuel
  induction fuel with
  | zero =>
    intro elapsed n hfuel hbound
    refine ⟨elapsed, ?_, by omega, hbound⟩
    unfold waitForPredictionAux
    rw [dif_neg (by omega)]
  | succ k ih =>
    intro elapsed n hfuel hbound
    by_cases h : elapsed < maxMs
    · have step := ih (elapsed + interval) (n + 1) (by omega) (by omega)
      obtain ⟨e, he, h1, h2⟩ := step
      refine ⟨e, ?_, h1, h2⟩
      unfold waitForPredictionAux
      rw [dif_pos h, if_neg (by simp [hnever])]
      exact he
    · refine ⟨elapsed, ?_, by omega, hbound⟩
      unfold waitForPredictionAux
      rw [dif_neg h]

/-- `pollLoop3Iter` never breaks when no observation satisfies the loop's
terminal test: it exhausts the fuel, stepping to the next observation each
time. -/
theorem pollLoop3Iter_never (f : ℕ → PredStatus)
    (hnever : ∀ m, isTerminal3 (f m) = false) :
    ∀ fuel cur, pollLoop3Iter f fuel cur = (cur + fuel, f (cur + fuel)) := by
  intro fuel
  induction fuel with
  | zero => intro cur; simp [pollLoop3Iter]
  | succ k ih =>
    intro cur
    unfold pollLoop3Iter
    rw [if_neg (by simp [hnever])]
    have h2 : cur + 1 + k = cur + (k + 1) := by omega
    rw [ih (cur + 1), h2]

/-- C3 counterexample: against the third proxy variant's loop, a prediction
whose status is the terminal `canceled` from the very first observation is
polled for all 90 iterations instead of being returned at once — the loop's
exit test omits `canceled`. -/
theorem C3_polling_counterexample :
    pollLoop3 (fun _ => PredStatus.canceled) = (90, PredStatus.canceled) ∧
    isTerminal PredStatus.canceled = true ∧
    isTerminal3 PredStatus.canceled = false ∧ (90 : ℕ) ≠ 0 := by
  refine ⟨rfl, rfl, rfl, by omega⟩

/-- C3 (amended): the `waitForPrediction` helpers return the job state at
the first observation whose status is terminal (succeeded, failed or
canceled) provided the clock is still within `MAX_POLL_MS`, and when the
status is never terminal they throw the timeout at the first clock value
reaching the bound (within one poll interval of it); the inline loop of the
third proxy variant instead treats only succeeded and failed as terminal,
so a permanently `canceled` job is polled for all `MAX_POLLS` iterations
and the loop exits with the last observation. -/
theorem C3_polling_amended (maxMs interval : ℕ) (hI : 0 < interval)
    (f : ℕ → PredStatus) :
    (∀ j, (∀ m, m < j → isTerminal (f m) = false) → isTerminal (f j) = true →
      j * interval < maxMs →
      waitForPrediction maxMs interval hI f = (j * interval, .ok (f j))) ∧
    ((∀ m, isTerminal (f m) = false) →
      ∃ e, waitForPrediction maxMs interval hI f
          = (e, .error "Timeout waiting for Replicate prediction") ∧
        maxMs ≤ e ∧ e < maxMs + interval) ∧
    ((∀ m, isTerminal3 (f m) = false) →
      pollLoop3 f = (MAX_POLLS, f MAX_POLLS)) := by
  refine ⟨?_, ?_, ?_⟩
  · intro j hpre hterm hlt
    unfold waitForPrediction
    have h := waitForPredictionAux_terminal maxMs interval hI f j 0 0
      (by simpa using hpre) (by simpa using hterm) (by omega)
    simpa using h
  · intro hnever
    unfold waitForPrediction
    exact waitForPredictionAux_timeout maxMs interval hI f hnever maxMs 0 0
      (by omega) (by omega)
  · intro hnever
    unfold pollLoop3
    rw [pollLoop3Iter_never f hnever MAX_POLLS 0]
    simp

/-- C3 witness: a job that succeeds at the third observation is returned
then, a never-terminal job times out exactly at the 120000 ms bound, and
the canceled-blind loop runs to exhaustion, via `C3_polling_amended`. -/
theorem C3_polling_witness :
    (waitForPrediction 120000 2500 (by omega)
        (fun n => if n < 3 then PredStatus.processing else PredStatus.succeeded)
      = (7500, .ok PredStatus.succeeded)) ∧
    (∃ e, waitForPrediction 120000 2500 (by omega) (fun _ => PredStatus.processing)
        = (e, .error "Timeout waiting for Replicate prediction") ∧
      120000 ≤ e ∧ e < 122500) ∧
    pollLoop3 (fun _ => PredStatus.canceled) = (MAX_POLLS, PredStatus.canceled) := by
  refine ⟨?_, ?_, ?_⟩
  · have h := (C3_polling_amended 120000 2500 (by omega)
      (fun n => if n < 3 then PredStatus.processing else PredStatus.succeeded)).1
      3 (by decide) (by decide) (by omega)
    simpa using h
  · exact (C3_polling_amended 120000 2500 (by omega) (fun _ => PredStatus.processing)).2.1
      (fun m => rfl)
  · exact (C3_polling_amended 1 1 (by omega) (fun _ => PredStatus.canceled)).2.2
      (fun m => rfl)



/-- Code point of the lowered character. -/
theorem jsToLower_toNat (c : Char) :
    (jsToLower c).toNat =
      if 65 ≤ c.toNat ∧ c.toNat ≤ 90 then c.toNat + 32 else c.toNat := by
  unfold jsToLower
  by_cases h : 65 ≤ c.toNat ∧ c.toNat ≤ 90
  · rw [dif_pos h, if_pos h]
    rfl
  · rw [dif_neg h, if_neg h]

/-- The lowering step never produces uppercase ASCII. -/
theorem jsToLower_not_upper (c : Char) :
    (jsToLower c).toNat < 65 ∨ 90 < (jsToLower c).toNat := by
  rw [jsToLower_toNat]
  split <;> omega

/-- Every character of a run-replacement output is the inserted underscore
or a kept word/hyphen character of the input. -/
theorem replaceRunsAux_chars (l : List Char) :
    ∀ b c, c ∈ replaceRunsAux b l →
      c = '_' ∨ (c ∈ l ∧ (jsWordChar c || c == '-') = true) := by
  induction l with
  | nil =>
    intro b c h
    simp [replaceRunsAux] at h
  | cons a t ih =>
    intro b c h
    unfold replaceRunsAux at h
    by_cases hw : (jsWordChar a || a == '-') = true
    · rw [if_pos hw] at h
      rcases List.mem_cons.mp h with rfl | h2
      · exact Or.inr ⟨List.mem_cons_self _ _, hw⟩
      · rcases ih false c h2 with h3 | ⟨h3, h4⟩
        · exact Or.inl h3
        · exact Or.inr ⟨List.mem_cons_of_mem a h3, h4⟩
    · rw [if_neg hw] at h
      cases b with
      | true =>
        rw [if_pos rfl] at h
        rcases ih true c h with h3 | ⟨h3, h4⟩
        · exact Or.inl h3
        · exact Or.inr ⟨List.mem_cons_of_mem a h3, h4⟩
      | false =>
        rw [if_neg (by simp)] at h
        rcases List.mem_cons.mp h with rfl | h2
        · exact Or.inl rfl
        · rcases ih true c h2 with h3 | ⟨h3, h4⟩
          · exact Or.inl h3
          · exact Or.inr ⟨List.mem_cons_of_mem a h3, h4⟩

/-- The underscore collapse only keeps characters of its input. -/
theorem collapseAux_subset (l : List Char) :
    ∀ b c, c ∈ collapseAux b l → c ∈ l := by
  induction l with
  | nil =>
    intro b c h
    simp [collapseAux] at h
  | cons a t ih =>
    intro b c h
    unfold collapseAux at h
    by_cases ha : (a == '_') = true
    · rw [if_pos ha] at h
      cases b with
      | true =>
        rw [if_pos rfl] at h
        exact List.mem_cons_of_mem a (ih true c h)
      | false =>
        rw [if_neg (by simp)] at h
        rcases List.mem_cons.mp h with rfl | h2
        · rw [beq_iff_eq.mp ha]
          exact List.mem_cons_self _ _
        · exact List.mem_cons_of_mem a (ih true c h2)
    · rw [if_neg ha] at h
      rcases List.mem_cons.mp h with rfl | h2
      · exact List.mem_cons_self _ _
      · exact List.mem_cons_of_mem a (ih false c h2)

/-- Characters of the sanitized name are sanitized. -/
theorem sanitizeName_data_chars (s : String) :
    ∀ c ∈ (sanitizeName s).data, sanitizedChar c = true := by
  intro c hc
  have hc1 : c ∈ collapseAux false (replaceRunsAux false (s.data.map jsToLower)) :=
    List.take_subset 80 _ hc
  have hc2 := collapseAux_subset _ false c hc1
  rcases replaceRunsAux_chars _ false c hc2 with rfl | ⟨hmem, hwd⟩
  · decide
  · obtain ⟨c0, _, rfl⟩ := List.mem_map.mp hmem
    have hup := jsToLower_not_upper c0
    have hwd' : jsWordChar (jsToLower c0) = true ∨ jsToLower c0 = '-' := by
      simpa using hwd
    simp only [sanitizedChar, Bool.or_eq_true, decide_eq_true_eq, beq_iff_eq]
    rcases hwd' with hw | hdash
    · simp only [jsWordChar, Bool.or_eq_true, decide_eq_true_eq, beq_iff_eq] at hw
      rcases hw with (h3 | h3 | h3) | h3
      · exact Or.inl (Or.inl (Or.inl h3))
      · omega
      · exact Or.inl (Or.inl (Or.inr h3))
      · exact Or.inl (Or.inr h3)
    · exact Or.inr hdash

/-- The sanitized name never exceeds 80 characters. -/
theorem sanitizeName_length_le (s : String) : (sanitizeName s).length ≤ 80 := by
  have h : (sanitizeName s).length
      = (List.take 80 (collapseAux false (replaceRunsAux false (s.data.map jsToLower)))).length :=
    rfl
  rw [h, List.length_take]
  exact min_le_left _ _

/-- C8 (confirmed): for every caller-supplied name, the sanitized filename
base is at most 80 characters long and consists only of lowercase ASCII
letters, digits, underscore and hyphen — in particular it is fully
lowercase. -/
theorem C8_sanitizeName_contract (s : String) :
    (sanitizeName s).length ≤ 80 ∧
    ∀ c ∈ (sanitizeName s).data, sanitizedChar c = true :=
  ⟨sanitizeName_length_le s, sanitizeName_data_chars s⟩

/-- Lowering is the identity on sanitized characters. -/
theorem jsToLower_id_of_sanitized (c : Char) (h : sanitizedChar c = true) :
    jsToLower c = c := by
  have hneg : ¬(65 ≤ c.toNat ∧ c.toNat ≤ 90) := by
    simp only [sanitizedChar, Bool.or_eq_true, decide_eq_true_eq, beq_iff_eq] at h
    rcases h with ((h | h) | rfl) | rfl
    · omega
    · omega
    · decide
    · decide
  unfold jsToLower
  rw [dif_neg hneg]

/-- Sanitized characters survive the run-replacement filter. -/
theorem sanitized_wordDash (c : Char) (h : sanitizedChar c = true) :
    (jsWordChar c || c == '-') = true := by
  simp only [sanitizedChar, Bool.or_eq_true, decide_eq_true_eq, beq_iff_eq] at h
  simp only [jsWordChar, Bool.or_eq_true, decide_eq_true_eq, beq_iff_eq]
  rcases h with ((h | h) | rfl) | rfl
  · exact Or.inl (Or.inl (Or.inl h))
  · exact Or.inl (Or.inl (Or.inr (Or.inr h)))
  · exact Or.inl (Or.inr rfl)
  · exact Or.inr rfl

/-- The run-replacement is the identity on kept characters. -/
theorem replaceRunsAux_id (l : List Char)
    (h : ∀ c ∈ l, (jsWordChar c || c == '-') = true) :
    replaceRunsAux false l = l := by
  induction l with
  | nil => rfl
  | cons a t ih =>
    unfold replaceRunsAux
    rw [if_pos (h a (List.mem_cons_self a t))]
    rw [ih (fun c hc => h c (List.mem_cons_of_mem a hc))]

/-- A collapse started in-run never emits a leading underscore. -/
theorem collapseAux_true_no_lead (t : List Char) :
    ∀ r, collapseAux true t ≠ '_' :: r := by
  induction t with
  | nil =>
    intro r h
    simp [collapseAux] at h
  | cons a t ih =>
    intro r h
    unfold collapseAux at h
    by_cases ha : (a == '_') = true
    · rw [if_pos ha, if_pos rfl] at h
      exact ih r h
    · rw [if_neg ha] at h
      have h1 : a = '_' := by injection h
      exact ha (by rw [h1]; rfl)

/-- The collapse output has no adjacent underscores. -/
theorem collapseAux_noUU (l : List Char) : ∀ b, noUU (collapseAux b l) = true := by
  induction l with
  | nil => intro b; rfl
  | cons a t ih =>
    intro b
    unfold collapseAux
    by_cases ha : (a == '_') = true
    · rw [if_pos ha]
      cases b with
      | true =>
        rw [if_pos rfl]
        exact ih true
      | false =>
        rw [if_neg (by simp)]
        cases hx : collapseAux true t with
        | nil => rfl
        | cons x r =>
          have hxne : (x == '_') = false := by
            rcases Bool.eq_false_or_eq_true (x == '_') with h2 | h2
            · exact absurd (by rw [hx, beq_iff_eq.mp h2]) (collapseAux_true_no_lead t r)
            · exact h2
          have h3 : noUU (x :: r) = true := by rw [← hx]; exact ih true
          unfold noUU
          rw [Bool.and_eq_true]
          refine ⟨?_, h3⟩
          rw [hxne]
          rfl
    · rw [if_neg ha]
      cases hx : collapseAux false t with
      | nil => rfl
      | cons x r =>
        have h3 : noUU (x :: r) = true := by rw [← hx]; exact ih false
        have ha2 : (a == '_') = false := by
          rw [← Bool.not_eq_true]
          exact ha
        unfold noUU
        rw [Bool.and_eq_true]
        refine ⟨?_, h3⟩
        rw [ha2]
        rfl

/-- A list without adjacent underscores is kept whole by any tail. -/
theorem noUU_tail (a : Char) (t : List Char) (h : noUU (a :: t) = true) :
    noUU t = true := by
  cases t with
  | nil => rfl
  | cons x r =>
    unfold noUU at h
    rw [Bool.and_eq_true] at h
    exact h.2

/-- The collapse is the identity on lists without adjacent underscores
(given, when started in-run, no leading underscore). -/
theorem collapseAux_id_of_noUU :
    ∀ l b, noUU l = true → (b = true → ∀ t', l ≠ '_' :: t') →
      collapseAux b l = l := by
  intro l
  induction l with
  | nil => intro b _ _; rfl
  | cons a t ih =>
    intro b hno hhead
    unfold collapseAux
    by_cases ha : (a == '_') = true
    · have ha' : a = '_' := beq_iff_eq.mp ha
      subst ha'
      cases b with
      | true => exact absurd rfl (hhead rfl t)
      | false =>
        rw [if_pos ha, if_neg (by simp)]
        have htail : collapseAux true t = t := by
          apply ih true (noUU_tail _ _ hno)
          intro _ t' ht'
          cases t with
          | nil => exact List.noConfusion ht'
          | cons x r =>
            have h1 : x = '_' := by injection ht'
            unfold noUU at hno
            rw [Bool.and_eq_true] at hno
            obtain ⟨h2, _⟩ := hno
            rw [h1] at h2
            simp at h2
        rw [htail]
    · rw [if_neg ha]
      rw [ih false (noUU_tail _ _ hno) (fun h => absurd h (by simp))]

/-- Truncation preserves the no-adjacent-underscores invariant. -/
theorem noUU_take (l : List Char) : ∀ n, noUU l = true → noUU (l.take n) = true := by
  induction l with
  | nil =>
    intro n _
    rw [List.take_nil]
    rfl
  | cons a t ih =>
    intro n h
    cases n with
    | zero => rfl
    | succ m =>
      rw [List.take_succ_cons]
      cases t with
      | nil =>
        rw [List.take_nil]
        rfl
      | cons x r =>
        cases m with
        | zero => rfl
        | succ k =>
          rw [List.take_succ_cons]
          unfold noUU at h ⊢
          rw [Bool.and_eq_true] at h
          obtain ⟨h1, h2⟩ := h
          have h3 := ih (k + 1) h2
          rw [List.take_succ_cons] at h3
          rw [Bool.and_eq_true]
          exact ⟨h1, h3⟩

/-- C10 (confirmed): the filename sanitizer is idempotent — applying
`sanitizeName` to its own output returns the same value. -/
theorem C10_sanitizeName_idempotent (s : String) :
    sanitizeName (sanitizeName s) = sanitizeName s := by
  have schars := sanitizeName_data_chars s
  show String.mk (List.take 80 (collapseAux false (replaceRunsAux false
    ((sanitizeName s).data.map jsToLower)))) = sanitizeName s
  have hmap : (sanitizeName s).data.map jsToLower = (sanitizeName s).data := by
    have h1 : ∀ c ∈ (sanitizeName s).data, jsToLower c = id c :=
      fun c hc => jsToLower_id_of_sanitized c (schars c hc)
    rw [List.map_congr_left h1, List.map_id]
  rw [hmap]
  have hrr : replaceRunsAux false (sanitizeName s).data = (sanitizeName s).data :=
    replaceRunsAux_id _ (fun c hc => sanitized_wordDash c (schars c hc))
  rw [hrr]
  have hnu : noUU (sanitizeName s).data = true := by
    show noUU (List.take 80 (collapseAux false
      (replaceRunsAux false (s.data.map jsToLower)))) = true
    exact noUU_take _ 80 (collapseAux_noUU _ false)
  have hcol : collapseAux false (sanitizeName s).data = (sanitizeName s).data :=
    collapseAux_id_of_noUU _ false hnu (fun h => absurd h (by simp))
  rw [hcol]
  show String.mk (List.take 80 (List.take 80 (collapseAux false
    (replaceRunsAux false (s.data.map jsToLower))))) = sanitizeName s
  rw [List.take_take, min_self]
  rfl


end NovaAI
